import Mathlib

/-!
Shallow embedding of the exo-finder backend (nasa-backend/app.py):
the three mission CSV normalizers (get_kepler_data, get_tess_data,
get_k2_data), the numeric safe-cast helper (safe_float), the color
bucketing (assign_planet_color) and the multi-planet-system grouper
(get_multi_planet_systems).

Modelling conventions:
* A pandas cell value is a `PyVal`: None, NaN (a missing float cell),
  a finite number (modelled as a rational, since none of the verified
  properties depend on binary floating-point rounding), or a string.
* Python string formatting of a finite float (`str(x)`) is abstracted
  by printing the rational; no verified property depends on it.
* Python `float(s)` on strings is modelled for finite decimal literals
  (optional sign, digits, optional fractional part); the special
  spellings accepted by CPython ("inf", "nan", exponents) are outside
  the rational domain and not modelled.
-/

namespace ExoFinder

/-- A pandas/Python cell value as it reaches the transformation code. -/
inductive PyVal where
  | none : PyVal
  | nan : PyVal
  | num : ℚ → PyVal
  | str : String → PyVal
deriving DecidableEq, Repr, Inhabited

/-- `pd.isna` on a scalar: True exactly for None and NaN. -/
def pdIsna : PyVal → Bool
  | PyVal.none => true
  | PyVal.nan => true
  | _ => false

/-- `pd.notna` on a scalar. -/
def pdNotna (v : PyVal) : Bool := !(pdIsna v)

/-- Python `str()` of a cell value.  `str(None) = "None"`,
`str(float('nan')) = "nan"`; the decimal formatting of a finite float is
abstracted by the rational printer. -/
def pyStr : PyVal → String
  | PyVal.none => "None"
  | PyVal.nan => "nan"
  | PyVal.num q => toString q
  | PyVal.str s => s

/-- Whether the character list `n` is an initial segment of `h`. -/
def leadMatch : List Char → List Char → Bool
  | [], _ => true
  | _ :: _, [] => false
  | a :: as, b :: bs => a = b && leadMatch as bs

/-- Whether the character list `n` occurs inside `h`. -/
def subSearch : List Char → List Char → Bool
  | n, [] => n.isEmpty
  | n, h :: hs => leadMatch n (h :: hs) || subSearch n hs

/-- Python `needle in hay` on strings. -/
def strHasSub (hay needle : String) : Bool := subSearch needle.data hay.data

/-- Python `str.upper()`; the catalog strings are ASCII. -/
def pyUpper (s : String) : String := String.mk (s.data.map Char.toUpper)

/-- Python `str.split(sep)` on the character list of a string. -/
def splitChar (sep : Char) : List Char → List (List Char)
  | [] => [[]]
  | c :: rest =>
    let r := splitChar sep rest
    if c == sep then [] :: r
    else
      match r with
      | [] => [[c]]
      | h :: t => (c :: h) :: t

/-- Separator-joining of chunks; `joinChar sep (splitChar sep l).dropLast`
is Python `sep.join(s.split(sep)[:-1])`, i.e. `s.rsplit(sep, 1)[0]`. -/
def joinChar (sep : Char) : List (List Char) → List Char
  | [] => []
  | [x] => x
  | x :: xs => x ++ sep :: joinChar sep xs

/-- Whitespace stripping at both ends (what `int()`/`float()` accept). -/
def stripChars (l : List Char) : List Char :=
  ((l.dropWhile Char.isWhitespace).reverse.dropWhile Char.isWhitespace).reverse

/-- Digit-string to Nat; `Option.none` when empty or not all digits. -/
def natOfDigits (ds : List Char) : Option Nat :=
  if !ds.isEmpty && ds.all Char.isDigit then
    some (ds.foldl (fun a c => a * 10 + (c.toNat - 48)) 0)
  else Option.none

/-- Python `int(s)` on a string: optional surrounding whitespace, optional
sign, decimal digits; `Option.none` models the ValueError path. -/
def strToInt? (s : String) : Option Int :=
  match stripChars s.data with
  | '-' :: ds => (natOfDigits ds).map (fun n => -(n : Int))
  | '+' :: ds => (natOfDigits ds).map (fun n => (n : Int))
  | ds => (natOfDigits ds).map (fun n => (n : Int))

/-- Unsigned decimal literal (digits, optional single point) to ℚ. -/
def decCore (u : List Char) : Option ℚ :=
  match splitChar '.' u with
  | [a] =>
    if !a.isEmpty && a.all Char.isDigit then
      some ((a.foldl (fun n c => n * 10 + (c.toNat - 48)) 0 : Nat) : ℚ)
    else Option.none
  | [a, b] =>
    if (!a.isEmpty || !b.isEmpty)
        && a.all Char.isDigit && b.all Char.isDigit then
      some (((a.foldl (fun n c => n * 10 + (c.toNat - 48)) 0 : Nat) : ℚ)
        + ((b.foldl (fun n c => n * 10 + (c.toNat - 48)) 0 : Nat) : ℚ)
          / ((10 : ℚ) ^ b.length))
    else Option.none
  | _ => Option.none

/-- Python `float(s)` on a string, for finite decimal literals. -/
def strToRat? (s : String) : Option ℚ :=
  match stripChars s.data with
  | '-' :: rest => (decCore rest).map (fun q => -q)
  | '+' :: rest => decCore rest
  | ds => decCore ds

/-- Python exception kinds relevant to the embedded code. -/
inductive PyErr where
  | fileNotFound : PyErr
  | valueError : PyErr
  | typeError : PyErr
deriving DecidableEq, Repr

/-- Python `float(value)`.  Numbers convert to themselves, numeric strings
parse, non-numeric strings raise ValueError, None raises TypeError.  The
NaN branch is unreachable below `safe_float`'s isna guard (a NaN float is
not representable in ℚ); it is modelled as an error. -/
def pyFloat : PyVal → Except PyErr ℚ
  | PyVal.num q => Except.ok q
  | PyVal.str s =>
    match strToRat? s with
    | some q => Except.ok q
    | Option.none => Except.error PyErr.valueError
  | PyVal.none => Except.error PyErr.typeError
  | PyVal.nan => Except.error PyErr.valueError

/-- app.py `safe_float`: `None` for NaN/None, try `float(value)`, catch
ValueError/TypeError to `None`.  Totality of this definition is the
embedding of "never raises". -/
def safe_float (v : PyVal) : Option ℚ :=
  if pdIsna v then Option.none
  else
    match pyFloat v with
    | Except.ok q => some q
    | Except.error _ => Option.none

/-- app.py `extract_year_from_date`. -/
def extract_year_from_date (v : PyVal) : Option Int :=
  if pdIsna v then Option.none
  else
    match v with
    | PyVal.str s =>
      if s.data.contains '-' then
        strToInt? (String.mk ((splitChar '-' s.data).headD []))
      else strToInt? (String.mk ((pyStr v).data.take 4))
    | _ => strToInt? (String.mk ((pyStr v).data.take 4))

/-- One raw row of kepler_koi.csv (the columns app.py reads). -/
structure KeplerRaw where
  kepoi_name : PyVal
  kepler_name : PyVal
  koi_disposition : PyVal
  koi_vet_date : PyVal
  koi_period : PyVal
  koi_prad : PyVal
  koi_srad : PyVal
  koi_steff : PyVal
  koi_smass : PyVal
  koi_insol : PyVal
  koi_teq : PyVal
  ra : PyVal
  dec : PyVal
  koi_score : PyVal
  koi_sma : PyVal
deriving DecidableEq, Repr

/-- One raw row of tess_toi.csv (the columns app.py reads). -/
structure TessRaw where
  tfopwg_disp : PyVal
  toi_created : PyVal
  toi : PyVal
  pl_orbper : PyVal
  pl_rade : PyVal
  st_rad : PyVal
  st_teff : PyVal
  st_dist : PyVal
  pl_insol : PyVal
  pl_eqt : PyVal
  ra : PyVal
  dec : PyVal
deriving DecidableEq, Repr

/-- One raw row of k2_candidates.csv (the columns app.py reads). -/
structure K2Raw where
  pl_name : PyVal
  k2_name : PyVal
  disposition : PyVal
  disc_year : PyVal
  pl_orbper : PyVal
  pl_rade : PyVal
  st_rad : PyVal
  st_teff : PyVal
  st_mass : PyVal
  pl_insol : PyVal
  pl_eqt : PyVal
  ra : PyVal
  dec : PyVal
  hostname : PyVal
  pl_orbsmax : PyVal
  pl_letter : PyVal
  pl_masse : PyVal
deriving DecidableEq, Repr

/-- The unified normalized planet record produced by the three endpoints.
The Python dicts have mission-specific key sets; the union is modelled
here, with neutral values ("" / absent) for keys a mission does not
emit. -/
structure PlanetRecord where
  mission : String
  pl_name : String
  kepler_name : String
  k2_name : String
  disposition : String
  discovery_year : Int
  pl_orbper : Option ℚ
  pl_rade : Option ℚ
  st_rad : Option ℚ
  st_teff : Option ℚ
  st_mass : Option ℚ
  st_dist : Option ℚ
  pl_insol : Option ℚ
  pl_eqt : Option ℚ
  ra : Option ℚ
  dec : Option ℚ
  koi_score : Option ℚ
  toi : String
  disc_facility : String
deriving DecidableEq, Repr

/-- app.py lines 159-168: Kepler disposition normalization. -/
def normalize_kepler_disposition (v : PyVal) : String :=
  let d := pyUpper (pyStr v)
  if strHasSub d "CONFIRMED" || d == "CONFIRMED" then "CONFIRMED"
  else if strHasSub d "CANDIDATE" || d == "CANDIDATE" then "CANDIDATE"
  else if strHasSub d "FALSE" || d == "FALSE POSITIVE" then "FALSE POSITIVE"
  else "CANDIDATE"

/-- app.py lines 153-157: vet-date year with Python-truthiness fallback
(`if not year`: both None and 0 fall back to 2011). -/
def kepler_year (v : PyVal) : Int :=
  match extract_year_from_date v with
  | some y => if y == 0 then 2011 else y
  | Option.none => 2011

/-- Loop body of get_kepler_data (app.py lines 152-187). -/
def keplerTransformRow (r : KeplerRaw) : PlanetRecord :=
  { mission := "Kepler"
    pl_name := pyStr r.kepoi_name
    kepler_name := pyStr r.kepler_name
    k2_name := ""
    disposition := normalize_kepler_disposition r.koi_disposition
    discovery_year := kepler_year r.koi_vet_date
    pl_orbper := safe_float r.koi_period
    pl_rade := safe_float r.koi_prad
    st_rad := safe_float r.koi_srad
    st_teff := safe_float r.koi_steff
    st_mass := safe_float r.koi_smass
    st_dist := Option.none
    pl_insol := safe_float r.koi_insol
    pl_eqt := safe_float r.koi_teq
    ra := safe_float r.ra
    dec := safe_float r.dec
    koi_score := safe_float r.koi_score
    toi := ""
    disc_facility := "Kepler" }

/-- app.py get_kepler_data: drop rows whose koi_disposition is NA
(line 148), then transform each remaining row. -/
def get_kepler_data (rows : List KeplerRaw) : List PlanetRecord :=
  (rows.filter (fun r => pdNotna r.koi_disposition)).map keplerTransformRow

/-- app.py lines 220-231: TESS disposition normalization (exact codes). -/
def normalize_tess_disposition (v : PyVal) : String :=
  let d := pyUpper (pyStr v)
  if d == "CP" then "CONFIRMED"
  else if d == "PC" then "CANDIDATE"
  else if d == "FP" then "FALSE POSITIVE"
  else if d == "KP" then "CONFIRMED"
  else "CANDIDATE"

/-- app.py lines 215-218: TOI-creation year with truthiness fallback. -/
def tess_year (v : PyVal) : Int :=
  match extract_year_from_date v with
  | some y => if y == 0 then 2019 else y
  | Option.none => 2019

/-- Loop body of get_tess_data (app.py lines 214-249). -/
def tessTransformRow (r : TessRaw) : PlanetRecord :=
  { mission := "TESS"
    pl_name := "TOI-" ++ pyStr r.toi
    kepler_name := ""
    k2_name := ""
    disposition := normalize_tess_disposition r.tfopwg_disp
    discovery_year := tess_year r.toi_created
    pl_orbper := safe_float r.pl_orbper
    pl_rade := safe_float r.pl_rade
    st_rad := safe_float r.st_rad
    st_teff := safe_float r.st_teff
    st_mass := Option.none
    st_dist := safe_float r.st_dist
    pl_insol := safe_float r.pl_insol
    pl_eqt := safe_float r.pl_eqt
    ra := safe_float r.ra
    dec := safe_float r.dec
    koi_score := Option.none
    toi := pyStr r.toi
    disc_facility := "TESS" }

/-- app.py get_tess_data: drop rows whose tfopwg_disp is NA (line 211),
then transform each remaining row. -/
def get_tess_data (rows : List TessRaw) : List PlanetRecord :=
  (rows.filter (fun r => pdNotna r.tfopwg_disp)).map tessTransformRow

/-- app.py lines 284-293: K2 disposition normalization (substring only). -/
def normalize_k2_disposition (v : PyVal) : String :=
  let d := pyUpper (pyStr v)
  if strHasSub d "CONFIRMED" then "CONFIRMED"
  else if strHasSub d "CANDIDATE" then "CANDIDATE"
  else if strHasSub d "FALSE" then "FALSE POSITIVE"
  else "CANDIDATE"

/-- Python `int()` truncation toward zero of a rational. -/
def pyTrunc (q : ℚ) : Int :=
  if 0 ≤ q then ((q.num.toNat / q.den : Nat) : Int)
  else -(((-q.num).toNat / q.den : Nat) : Int)

/-- app.py lines 277-282: K2 discovery year from disc_year via safe_float,
with Python-truthiness fallback (None or 0.0 falls back to 2015),
otherwise truncated to int. -/
def k2_year (v : PyVal) : Int :=
  match safe_float v with
  | some q => if q == 0 then 2015 else pyTrunc q
  | Option.none => 2015

/-- Loop body of get_k2_data (app.py lines 276-311). -/
def k2TransformRow (r : K2Raw) : PlanetRecord :=
  { mission := "K2"
    pl_name := pyStr r.pl_name
    kepler_name := ""
    k2_name := pyStr r.k2_name
    disposition := normalize_k2_disposition r.disposition
    discovery_year := k2_year r.disc_year
    pl_orbper := safe_float r.pl_orbper
    pl_rade := safe_float r.pl_rade
    st_rad := safe_float r.st_rad
    st_teff := safe_float r.st_teff
    st_mass := safe_float r.st_mass
    st_dist := Option.none
    pl_insol := safe_float r.pl_insol
    pl_eqt := safe_float r.pl_eqt
    ra := safe_float r.ra
    dec := safe_float r.dec
    koi_score := Option.none
    toi := ""
    disc_facility := "K2" }

/-- app.py get_k2_data: drop rows whose disposition is NA (line 273),
then transform each remaining row. -/
def get_k2_data (rows : List K2Raw) : List PlanetRecord :=
  (rows.filter (fun r => pdNotna r.disposition)).map k2TransformRow

/-- app.py assign_planet_color: fixed radius buckets, first match wins. -/
def assign_planet_color (radius : ℚ) : String :=
  if radius < 5/4 then "#e74c3c"
  else if radius < 2 then "#3498db"
  else if radius < 6 then "#9b59b6"
  else if radius < 12 then "#f39c12"
  else "#1abc9c"

/-- pandas `Series.str.contains(needle, na=False, case=False)` on one
cell: NA and non-string cells give False, otherwise case-insensitive
substring match. -/
def pandasStrContains (v : PyVal) (needle : String) : Bool :=
  match v with
  | PyVal.str s => strHasSub (pyUpper s) (pyUpper needle)
  | _ => false

/-- Python truthiness of an Option-ℚ (`safe_float` result): None and 0.0
are falsy, any other number is truthy. -/
def truthyF : Option ℚ → Bool
  | some q => q != 0
  | Option.none => false

/-- Python truthiness of a cell value: None, 0.0 and "" are falsy;
NaN, any other number and any nonempty string are truthy. -/
def truthyPy : PyVal → Bool
  | PyVal.none => false
  | PyVal.nan => true
  | PyVal.num q => q != 0
  | PyVal.str s => !(s == "")

/-- An entry of a SystemRecord's planets array (app.py lines 421-428 /
468-475). -/
structure PlanetEntry where
  name : PyVal
  distance : ℚ
  size : ℚ
  period : ℚ
  mass : Option ℚ
  color : String
deriving DecidableEq, Repr

/-- One multi-planet system (app.py lines 431-438 / 478-485). -/
structure SystemRecord where
  name : PyVal
  star_temp : ℚ
  star_radius : ℚ
  planet_count : Nat
  planets : List PlanetEntry
  mission : String
deriving DecidableEq, Repr

/-- Python `x or default` on a safe_float result (None and 0.0 both fall
back to the default, app.py lines 433-434 / 480-481). -/
def orDefaultQ (v : Option ℚ) (d : ℚ) : ℚ :=
  match v with
  | some q => if q == 0 then d else q
  | Option.none => d

/-- Sort key comparison used for `sorted(planets, key=...)`. -/
def planetLE (p q : PlanetEntry) : Bool := decide (p.distance ≤ q.distance)

/-- Comparison for `sorted(..., key=planet_count, reverse=True)`: a
stable sort under this Boolean relation reproduces CPython's stable
descending sort. -/
def systemGE (a b : SystemRecord) : Bool := decide (b.planet_count ≤ a.planet_count)

/-- app.py lines 382-384: confirmed subset of the Kepler frame. -/
def keplerConfirmed (rows : List KeplerRaw) : List KeplerRaw :=
  rows.filter (fun r => pandasStrContains r.koi_disposition "CONFIRMED")

/-- app.py lines 389-391: grouping key of a Kepler row — the part of
kepoi_name before the first '.', provided the cell is a non-NA string
containing '.'. -/
def keplerGroupKey? (r : KeplerRaw) : Option String :=
  match r.kepoi_name with
  | PyVal.str s =>
    if s.data.contains '.' then
      some (String.mk ((splitChar '.' s.data).headD []))
    else Option.none
  | _ => Option.none

/-- Insertion-ordered grouping dict: append `r` to the group of key `k`,
creating the group at the end on first occurrence (Python dict order). -/
def addToGroups (gs : List (String × List KeplerRaw)) (k : String)
    (r : KeplerRaw) : List (String × List KeplerRaw) :=
  match gs with
  | [] => [(k, [r])]
  | (k2, rs) :: rest =>
    if k2 == k then (k2, rs ++ [r]) :: rest else (k2, rs) :: addToGroups rest k r

/-- app.py lines 387-394: star_groups built over the confirmed rows. -/
def keplerStarGroups (rows : List KeplerRaw) : List (String × List KeplerRaw) :=
  (keplerConfirmed rows).foldl
    (fun gs r =>
      match keplerGroupKey? r with
      | some k => addToGroups gs k r
      | Option.none => gs)
    []

/-- app.py lines 410-414: per-row completeness check via Python
truthiness of the three safe_float results. -/
def keplerQualifies (r : KeplerRaw) : Bool :=
  truthyF (safe_float r.koi_period) && truthyF (safe_float r.koi_prad)
    && truthyF (safe_float r.koi_sma)

/-- One Kepler planets-array entry (app.py lines 416-428); `n` is
`len(planets)` at the time the entry is built.  The `getD 0` reads are
only evaluated for qualifying rows, where the safe_float results are
present. -/
def mkKeplerEntry (r : KeplerRaw) (n : Nat) : PlanetEntry :=
  let radius := (safe_float r.koi_prad).getD 0
  let kn := pyStr r.kepoi_name
  { name := PyVal.str
      (if kn.data.contains '.' then String.mk ((splitChar '.' kn.data).getLastD [])
       else toString (n + 1))
    distance := (safe_float r.koi_sma).getD 0 * 215
    size := radius
    period := (safe_float r.koi_period).getD 0
    mass := Option.none
    color := assign_planet_color radius }

/-- The planets list built by the inner loop of app.py lines 409-428:
qualifying rows in order, each entry seeing the count built so far. -/
def keplerPlanets : List KeplerRaw → Nat → List PlanetEntry
  | [], _ => []
  | r :: rest, n =>
    if keplerQualifies r then mkKeplerEntry r n :: keplerPlanets rest (n + 1)
    else keplerPlanets rest n

/-- app.py lines 402-407: system display name from the first group row's
kepler_name (`rsplit(' ', 1)[0]`) when it is a non-NA string containing a
space, else the star id. -/
def keplerSystemName (starId : String) (g : List KeplerRaw) : String :=
  match g with
  | [] => starId
  | first :: _ =>
    match first.kepler_name with
    | PyVal.str s =>
      if s.data.contains ' ' then
        String.mk (joinChar ' ' ((splitChar ' ' s.data).dropLast))
      else starId
    | _ => starId

/-- Fallback row used for `headD` on group lists; groups produced by
keplerStarGroups are never empty, so it is never read. -/
def blankKepler : KeplerRaw :=
  { kepoi_name := PyVal.nan, kepler_name := PyVal.nan
    koi_disposition := PyVal.nan, koi_vet_date := PyVal.nan
    koi_period := PyVal.nan, koi_prad := PyVal.nan, koi_srad := PyVal.nan
    koi_steff := PyVal.nan, koi_smass := PyVal.nan, koi_insol := PyVal.nan
    koi_teq := PyVal.nan, ra := PyVal.nan, dec := PyVal.nan
    koi_score := PyVal.nan, koi_sma := PyVal.nan }

/-- The SystemRecord assembled for one Kepler group (app.py lines
399-438). -/
def mkKeplerSystem (g : String × List KeplerRaw) : SystemRecord :=
  let planets := keplerPlanets g.2 0
  let first := g.2.headD blankKepler
  { name := PyVal.str (keplerSystemName g.1 g.2)
    star_temp := orDefaultQ (safe_float first.koi_steff) 5778
    star_radius := orDefaultQ (safe_float first.koi_srad) 1
    planet_count := planets.length
    planets := (List.mergeSort planets planetLE).take 8
    mission := "Kepler" }

/-- app.py lines 397-438: the per-group loop over star_groups, with the
two membership checks (≥2 raw members, then ≥2 complete planets). -/
def keplerSystems (rows : List KeplerRaw) : List SystemRecord :=
  (keplerStarGroups rows).foldr
    (fun g acc =>
      if 2 ≤ g.2.length then
        if 2 ≤ (keplerPlanets g.2 0).length then mkKeplerSystem g :: acc
        else acc
      else acc)
    []

/-- app.py lines 447-449: confirmed subset of the K2 frame. -/
def k2Confirmed (rows : List K2Raw) : List K2Raw :=
  rows.filter (fun r => pandasStrContains r.disposition "CONFIRMED")

/-- app.py line 453: `hostname.dropna().unique()` — distinct non-NA
hostnames in order of first occurrence. -/
def k2HostKeys (rows : List K2Raw) : List PyVal :=
  ((rows.map (fun r => r.hostname)).filter pdNotna).foldl
    (fun acc h => if h ∈ acc then acc else acc ++ [h]) []

/-- app.py lines 453-454: each distinct host with its confirmed rows. -/
def k2HostGroups (rows : List K2Raw) : List (PyVal × List K2Raw) :=
  let conf := k2Confirmed rows
  (k2HostKeys conf).map (fun h => (h, conf.filter (fun r => r.hostname == h)))

/-- app.py lines 460-464: K2 per-row completeness check. -/
def k2Qualifies (r : K2Raw) : Bool :=
  truthyF (safe_float r.pl_orbper) && truthyF (safe_float r.pl_rade)
    && truthyF (safe_float r.pl_orbsmax)

/-- One K2 planets-array entry (app.py lines 466-475); the letter falls
back to `str(len(planets)+1)` when pl_letter is falsy. -/
def mkK2Entry (r : K2Raw) (n : Nat) : PlanetEntry :=
  let radius := (safe_float r.pl_rade).getD 0
  { name := if truthyPy r.pl_letter then r.pl_letter
            else PyVal.str (toString (n + 1))
    distance := (safe_float r.pl_orbsmax).getD 0 * 215
    size := radius
    period := (safe_float r.pl_orbper).getD 0
    mass := safe_float r.pl_masse
    color := assign_planet_color radius }

/-- The K2 planets list (app.py lines 459-475). -/
def k2Planets : List K2Raw → Nat → List PlanetEntry
  | [], _ => []
  | r :: rest, n =>
    if k2Qualifies r then mkK2Entry r n :: k2Planets rest (n + 1)
    else k2Planets rest n

/-- Fallback row for `headD`; K2 host groups are never empty. -/
def blankK2 : K2Raw :=
  { pl_name := PyVal.nan, k2_name := PyVal.nan, disposition := PyVal.nan
    disc_year := PyVal.nan, pl_orbper := PyVal.nan, pl_rade := PyVal.nan
    st_rad := PyVal.nan, st_teff := PyVal.nan, st_mass := PyVal.nan
    pl_insol := PyVal.nan, pl_eqt := PyVal.nan, ra := PyVal.nan
    dec := PyVal.nan, hostname := PyVal.nan, pl_orbsmax := PyVal.nan
    pl_letter := PyVal.nan, pl_masse := PyVal.nan }

/-- The SystemRecord assembled for one K2 host group (app.py lines
456-485). -/
def mkK2System (g : PyVal × List K2Raw) : SystemRecord :=
  let planets := k2Planets g.2 0
  let first := g.2.headD blankK2
  { name := g.1
    star_temp := orDefaultQ (safe_float first.st_teff) 5778
    star_radius := orDefaultQ (safe_float first.st_rad) 1
    planet_count := planets.length
    planets := (List.mergeSort planets planetLE).take 8
    mission := "K2" }

/-- app.py lines 452-485: the per-host loop over K2 groups. -/
def k2Systems (rows : List K2Raw) : List SystemRecord :=
  (k2HostGroups rows).foldr
    (fun g acc =>
      if 2 ≤ g.2.length then
        if 2 ≤ (k2Planets g.2 0).length then mkK2System g :: acc
        else acc
      else acc)
    []

/-- app.py lines 380-442: the Kepler half of the endpoint.  A missing
file raises FileNotFoundError, which the code catches and turns into an
empty contribution. -/
def keplerContribution (file : Option (List KeplerRaw)) : List SystemRecord :=
  match file with
  | some rows => keplerSystems rows
  | Option.none => []

/-- app.py lines 445-489: the K2 half of the endpoint, same failure
handling. -/
def k2Contribution (file : Option (List K2Raw)) : List SystemRecord :=
  match file with
  | some rows => k2Systems rows
  | Option.none => []

/-- Python dict upsert: replace in place on a name hit, else append
(dict keeps the first-insertion position, the value is overwritten). -/
def upsert (l : List SystemRecord) (s : SystemRecord) : List SystemRecord :=
  match l with
  | [] => [s]
  | t :: rest => if t.name == s.name then s :: rest else t :: upsert rest s

/-- app.py line 492: `{sys['name']: sys for sys in systems}` — values of
the comprehension dict, in key-first-insertion order, later entries for a
name overwriting earlier ones. -/
def dedupeByName (l : List SystemRecord) : List SystemRecord :=
  l.foldl upsert []

/-- app.py lines 377-501: whole-endpoint computation.  The inputs are
the two CSV files, `Option.none` meaning the file is missing on disk. -/
def get_multi_planet_systems (kf : Option (List KeplerRaw))
    (k2f : Option (List K2Raw)) : List SystemRecord :=
  let systems := keplerContribution kf ++ k2Contribution k2f
  (List.mergeSort (dedupeByName systems) systemGE).take 20

/-- An HTTP outcome of the route: status code and JSON body. -/
structure HttpResponse where
  status : Nat
  body : List SystemRecord
deriving DecidableEq, Repr

/-- The route around get_multi_planet_systems: per-mission file errors
are already absorbed inside the computation, and every operation in the
model is total, so the outer `except` (app.py lines 503-505, status 500)
is unreachable and the route answers 200 with the computed list. -/
def multi_planet_systems_route (kf : Option (List KeplerRaw))
    (k2f : Option (List K2Raw)) : HttpResponse :=
  { status := 200, body := get_multi_planet_systems kf k2f }

/-! Concrete rows used to instantiate the theorems below. -/

/-- A complete confirmed Kepler row of star K00001. -/
def sampleKRow1 : KeplerRaw :=
  { blankKepler with
      kepoi_name := PyVal.str "K00001.01"
      kepler_name := PyVal.str "Kepler-1 b"
      koi_disposition := PyVal.str "CONFIRMED"
      koi_period := PyVal.num 3
      koi_prad := PyVal.num 2
      koi_sma := PyVal.num 1 }

/-- A second complete confirmed row of the same star. -/
def sampleKRow2 : KeplerRaw :=
  { blankKepler with
      kepoi_name := PyVal.str "K00001.02"
      kepler_name := PyVal.str "Kepler-1 c"
      koi_disposition := PyVal.str "CONFIRMED"
      koi_period := PyVal.num 5
      koi_prad := PyVal.num 1
      koi_sma := PyVal.num 2 }

/-- A two-planet Kepler input file. -/
def sampleKeplerRows : List KeplerRaw := [sampleKRow1, sampleKRow2]

/-- The system the grouper derives from `sampleKeplerRows`. -/
def sampleSystem : SystemRecord :=
  mkKeplerSystem ("K00001", sampleKeplerRows)

/-- A Kepler row with a present disposition but a missing orbital
period. -/
def c1row : KeplerRaw :=
  { blankKepler with
      kepoi_name := PyVal.str "K00001.01"
      koi_disposition := PyVal.str "CONFIRMED"
      koi_prad := PyVal.num 2 }

/-- A bare system record named X, as produced by the Kepler pass. -/
def sysA : SystemRecord :=
  { name := PyVal.str "X", star_temp := 5000, star_radius := 1
    planet_count := 2, planets := [], mission := "Kepler" }

/-- A system record with the same name, as produced later by the K2
pass. -/
def sysB : SystemRecord :=
  { name := PyVal.str "X", star_temp := 6000, star_radius := 2
    planet_count := 3, planets := [], mission := "K2" }

/-- The last element of `l` whose name is `n` — the entry the Python
dict comprehension keeps for key `n`. -/
def lastNamed (l : List SystemRecord) (n : PyVal) : Option SystemRecord :=
  (l.filter (fun s => s.name == n)).getLast?

/-- The three canonical disposition strings (§3 of the spec writes the
third as FALSE_POSITIVE; the code emits "FALSE POSITIVE"). -/
def canonicalDisp (s : String) : Prop :=
  s = "CONFIRMED" ∨ s = "CANDIDATE" ∨ s = "FALSE POSITIVE"

/-- The per-system shape asserted by the spec for grouper output, given
the two input files: the planets array is ascending in distance, holds
at most 8 entries, and every entry's distance is the (nonzero)
semi-major-axis value of some input row times exactly 215. -/
def sortedScaledBounded (kf : Option (List KeplerRaw))
    (k2f : Option (List K2Raw)) (sys : SystemRecord) : Prop :=
  sys.planets.Pairwise (fun p q => p.distance ≤ q.distance) ∧
  sys.planets.length ≤ 8 ∧
  ∀ p ∈ sys.planets, ∃ s : ℚ, s ≠ 0 ∧ p.distance = s * 215 ∧
    ((∃ rows r, kf = some rows ∧ r ∈ rows ∧ safe_float r.koi_sma = some s) ∨
     (∃ rows r, k2f = some rows ∧ r ∈ rows ∧ safe_float r.pl_orbsmax = some s))

/-! Helper lemmas. -/

lemma truthyF_eq_true_iff (o : Option ℚ) :
    truthyF o = true ↔ ∃ q, o = some q ∧ q ≠ 0 := by
  cases o <;> simp [truthyF]

lemma keplerPlanets_length (l : List KeplerRaw) :
    ∀ n, (keplerPlanets l n).length = (l.filter keplerQualifies).length := by
  induction l with
  | nil => intro n; rfl
  | cons r rest ih =>
    intro n
    cases hq : keplerQualifies r <;>
      simp [keplerPlanets, hq, List.filter_cons, ih]

lemma k2Planets_length (l : List K2Raw) :
    ∀ n, (k2Planets l n).length = (l.filter k2Qualifies).length := by
  induction l with
  | nil => intro n; rfl
  | cons r rest ih =>
    intro n
    cases hq : k2Qualifies r <;>
      simp [k2Planets, hq, List.filter_cons, ih]

lemma mem_keplerPlanets {p : PlanetEntry} (l : List KeplerRaw) :
    ∀ n, p ∈ keplerPlanets l n →
      ∃ r m, r ∈ l ∧ keplerQualifies r = true ∧ p = mkKeplerEntry r m := by
  induction l with
  | nil => intro n h; simp [keplerPlanets] at h
  | cons r rest ih =>
    intro n h
    cases hq : keplerQualifies r with
    | false =>
      rw [keplerPlanets, hq] at h
      obtain ⟨r2, m, hr2, hq2, hp⟩ := ih n h
      exact ⟨r2, m, List.mem_cons_of_mem _ hr2, hq2, hp⟩
    | true =>
      rw [keplerPlanets, hq] at h
      simp only [if_true, List.mem_cons] at h
      rcases h with h | h
      · exact ⟨r, n, List.mem_cons_self _ _, hq, h⟩
      · obtain ⟨r2, m, hr2, hq2, hp⟩ := ih (n + 1) h
        exact ⟨r2, m, List.mem_cons_of_mem _ hr2, hq2, hp⟩

lemma mem_k2Planets {p : PlanetEntry} (l : List K2Raw) :
    ∀ n, p ∈ k2Planets l n →
      ∃ r m, r ∈ l ∧ k2Qualifies r = true ∧ p = mkK2Entry r m := by
  induction l with
  | nil => intro n h; simp [k2Planets] at h
  | cons r rest ih =>
    intro n h
    cases hq : k2Qualifies r with
    | false =>
      rw [k2Planets, hq] at h
      obtain ⟨r2, m, hr2, hq2, hp⟩ := ih n h
      exact ⟨r2, m, List.mem_cons_of_mem _ hr2, hq2, hp⟩
    | true =>
      rw [k2Planets, hq] at h
      simp only [if_true, List.mem_cons] at h
      rcases h with h | h
      · exact ⟨r, n, List.mem_cons_self _ _, hq, h⟩
      · obtain ⟨r2, m, hr2, hq2, hp⟩ := ih (n + 1) h
        exact ⟨r2, m, List.mem_cons_of_mem _ hr2, hq2, hp⟩

lemma keplerSystems_eq (rows : List KeplerRaw) :
    keplerSystems rows =
      ((keplerStarGroups rows).filter
        (fun g => decide (2 ≤ (g.2.filter keplerQualifies).length))).map
        mkKeplerSystem := by
  unfold keplerSystems
  induction keplerStarGroups rows with
  | nil => rfl
  | cons g rest ih =>
    simp only [List.foldr, List.filter_cons]
    rw [keplerPlanets_length]
    by_cases h : 2 ≤ (g.2.filter keplerQualifies).length
    · have h2 : 2 ≤ g.2.length := le_trans h (List.length_filter_le _ _)
      rw [if_pos h2, if_pos h, ih]
      simp [h]
    · by_cases h2 : 2 ≤ g.2.length
      · rw [if_pos h2, if_neg h, ih]; simp [h]
      · rw [if_neg h2, ih]
        have h3 : ¬ 2 ≤ (g.2.filter keplerQualifies).length :=
          fun hc => h2 (le_trans hc (List.length_filter_le _ _))
        simp [h3]

lemma k2Systems_eq (rows : List K2Raw) :
    k2Systems rows =
      ((k2HostGroups rows).filter
        (fun g => decide (2 ≤ (g.2.filter k2Qualifies).length))).map
        mkK2System := by
  unfold k2Systems
  induction k2HostGroups rows with
  | nil => rfl
  | cons g rest ih =>
    simp only [List.foldr, List.filter_cons]
    rw [k2Planets_length]
    by_cases h : 2 ≤ (g.2.filter k2Qualifies).length
    · have h2 : 2 ≤ g.2.length := le_trans h (List.length_filter_le _ _)
      rw [if_pos h2, if_pos h, ih]
      simp [h]
    · by_cases h2 : 2 ≤ g.2.length
      · rw [if_pos h2, if_neg h, ih]; simp [h]
      · rw [if_neg h2, ih]
        have h3 : ¬ 2 ≤ (g.2.filter k2Qualifies).length :=
          fun hc => h2 (le_trans hc (List.length_filter_le _ _))
        simp [h3]

lemma addToGroups_rows {gs : List (String × List KeplerRaw)} {k : String}
    {r0 : KeplerRaw} {g} (hg : g ∈ addToGroups gs k r0) :
    ∀ r ∈ g.2, r = r0 ∨ ∃ g0, g0 ∈ gs ∧ r ∈ g0.2 := by
  induction gs with
  | nil =>
    intro r hr
    simp only [addToGroups, List.mem_singleton] at hg
    subst hg
    simp at hr
    exact Or.inl hr
  | cons g1 rest ih =>
    obtain ⟨k2, rs⟩ := g1
    intro r hr
    simp only [addToGroups] at hg
    by_cases hk : k2 == k
    · rw [if_pos hk, List.mem_cons] at hg
      rcases hg with hg | hg
      · subst hg
        simp only [List.mem_append, List.mem_singleton] at hr
        rcases hr with hr | hr
        · exact Or.inr ⟨(k2, rs), List.mem_cons_self _ _, hr⟩
        · exact Or.inl hr
      · exact Or.inr ⟨g, List.mem_cons_of_mem _ hg, hr⟩
    · rw [if_neg hk, List.mem_cons] at hg
      rcases hg with hg | hg
      · subst hg
        exact Or.inr ⟨(k2, rs), List.mem_cons_self _ _, hr⟩
      · rcases ih hg r hr with h | ⟨g0, hg0, hr0⟩
        · exact Or.inl h
        · exact Or.inr ⟨g0, List.mem_cons_of_mem _ hg0, hr0⟩

lemma foldl_groups_rows (l : List KeplerRaw) :
    ∀ (gs : List (String × List KeplerRaw)) (g : String × List KeplerRaw)
      (r : KeplerRaw),
      g ∈ l.foldl
        (fun gs r =>
          match keplerGroupKey? r with
          | some k => addToGroups gs k r
          | Option.none => gs) gs →
      r ∈ g.2 → (∃ g0, g0 ∈ gs ∧ r ∈ g0.2) ∨ r ∈ l := by
  induction l with
  | nil =>
    intro gs g r hg hr
    exact Or.inl ⟨g, hg, hr⟩
  | cons a l ih =>
    intro gs g r hg hr
    rw [List.foldl_cons] at hg
    rcases ih _ g r hg hr with ⟨g0, hg0, hr0⟩ | hmem
    · cases hke : keplerGroupKey? a with
      | none =>
        rw [hke] at hg0
        exact Or.inl ⟨g0, hg0, hr0⟩
      | some k =>
        rw [hke] at hg0
        rcases addToGroups_rows hg0 r hr0 with h | ⟨g1, hg1, hr1⟩
        · exact Or.inr (h ▸ List.mem_cons_self _ _)
        · exact Or.inl ⟨g1, hg1, hr1⟩
    · exact Or.inr (List.mem_cons_of_mem _ hmem)

lemma starGroups_rows {rows : List KeplerRaw} {g : String × List KeplerRaw}
    {r : KeplerRaw} (hg : g ∈ keplerStarGroups rows) (hr : r ∈ g.2) :
    r ∈ rows := by
  unfold keplerStarGroups at hg
  rcases foldl_groups_rows _ _ _ _ hg hr with ⟨g0, hg0, _⟩ | hmem
  · simp at hg0
  · unfold keplerConfirmed at hmem
    exact (List.mem_filter.mp hmem).1

lemma hostGroups_rows {rows : List K2Raw} {g : PyVal × List K2Raw}
    {r : K2Raw} (hg : g ∈ k2HostGroups rows) (hr : r ∈ g.2) :
    r ∈ rows := by
  unfold k2HostGroups at hg
  obtain ⟨h, _, rfl⟩ := List.mem_map.mp hg
  have h1 : r ∈ k2Confirmed rows := (List.mem_filter.mp hr).1
  unfold k2Confirmed at h1
  exact (List.mem_filter.mp h1).1

lemma mem_upsert {l : List SystemRecord} {s t : SystemRecord}
    (h : t ∈ upsert l s) : t = s ∨ t ∈ l := by
  induction l with
  | nil => simpa [upsert] using h
  | cons a rest ih =>
    simp only [upsert] at h
    by_cases hn : a.name == s.name
    · rw [if_pos hn, List.mem_cons] at h
      rcases h with h | h
      · exact Or.inl h
      · exact Or.inr (List.mem_cons_of_mem _ h)
    · rw [if_neg hn, List.mem_cons] at h
      rcases h with h | h
      · exact Or.inr (h ▸ List.mem_cons_self _ _)
      · rcases ih h with h | h
        · exact Or.inl h
        · exact Or.inr (List.mem_cons_of_mem _ h)

lemma self_mem_upsert (l : List SystemRecord) (s : SystemRecord) :
    s ∈ upsert l s := by
  induction l with
  | nil => simp [upsert]
  | cons a rest ih =>
    simp only [upsert]
    by_cases hn : a.name == s.name
    · rw [if_pos hn]; exact List.mem_cons_self _ _
    · rw [if_neg hn]; exact List.mem_cons_of_mem _ ih

lemma mem_upsert_of_ne {l : List SystemRecord} {s t : SystemRecord}
    (ht : t ∈ l) (hne : t.name ≠ s.name) : t ∈ upsert l s := by
  induction l with
  | nil => simp at ht
  | cons a rest ih =>
    simp only [upsert]
    rcases List.mem_cons.mp ht with rfl | ht2
    · have : ¬ t.name == s.name := by simpa using hne
      rw [if_neg this]
      exact List.mem_cons_self _ _
    · by_cases hn : a.name == s.name
      · rw [if_pos hn]
        exact List.mem_cons_of_mem _ ht2
      · rw [if_neg hn]
        exact List.mem_cons_of_mem _ (ih ht2)

lemma mem_foldl_upsert (l : List SystemRecord) :
    ∀ (acc : List SystemRecord) (t : SystemRecord),
      t ∈ l.foldl upsert acc → t ∈ acc ∨ t ∈ l := by
  induction l with
  | nil => intro acc t h; exact Or.inl h
  | cons a rest ih =>
    intro acc t h
    rw [List.foldl_cons] at h
    rcases ih _ t h with h2 | h2
    · rcases mem_upsert h2 with h3 | h3
      · exact Or.inr (h3 ▸ List.mem_cons_self _ _)
      · exact Or.inl h3
    · exact Or.inr (List.mem_cons_of_mem _ h2)

lemma mem_dedupeByName {l : List SystemRecord} {t : SystemRecord}
    (h : t ∈ dedupeByName l) : t ∈ l := by
  rcases mem_foldl_upsert l [] t h with h2 | h2
  · simp at h2
  · exact h2

lemma dedupeByName_append_singleton (l : List SystemRecord)
    (s : SystemRecord) :
    dedupeByName (l ++ [s]) = upsert (dedupeByName l) s := by
  simp [dedupeByName, List.foldl_append]

lemma lastNamed_mem_dedupe (l : List SystemRecord) :
    ∀ (n : PyVal) (s : SystemRecord), lastNamed l n = some s →
      s ∈ dedupeByName l := by
  induction l using List.reverseRecOn with
  | nil => intro n s h; simp [lastNamed] at h
  | append_singleton l t ih =>
    intro n s h
    rw [dedupeByName_append_singleton]
    unfold lastNamed at h
    rw [List.filter_append] at h
    by_cases hn : t.name == n
    · have hf : List.filter (fun s => s.name == n) [t] = [t] := by
        simp [List.filter, hn]
      rw [hf, List.getLast?_append] at h
      have hts : t = s := by simpa using h
      subst hts
      exact self_mem_upsert _ _
    · have hf : List.filter (fun s => s.name == n) [t] = [] := by
        simp [List.filter, hn]
      rw [hf, List.append_nil] at h
      have hs := ih n s h
      have hsn : s.name = n := by
        have := List.mem_filter.mp (List.mem_of_mem_getLast? h)
        simpa using this.2
      have htn : t.name ≠ n := by simpa using hn
      exact mem_upsert_of_ne hs (by rw [hsn]; exact fun he => htn he.symm)

lemma mem_addToGroups_key {gs : List (String × List KeplerRaw)} {k : String}
    {r0 : KeplerRaw} {g} (hg : g ∈ addToGroups gs k r0) :
    g.1 = k ∨ g.1 ∈ gs.map Prod.fst := by
  induction gs with
  | nil =>
    simp only [addToGroups, List.mem_singleton] at hg
    subst hg
    exact Or.inl rfl
  | cons g1 rest ih =>
    obtain ⟨k2, rs⟩ := g1
    simp only [addToGroups] at hg
    by_cases hk : k2 == k
    · rw [if_pos hk, List.mem_cons] at hg
      rcases hg with hg | hg
      · subst hg
        exact Or.inr (by simp)
      · refine Or.inr ?_
        rw [List.map_cons, List.mem_cons]
        exact Or.inr (List.mem_map_of_mem Prod.fst hg)
    · rw [if_neg hk, List.mem_cons] at hg
      rcases hg with hg | hg
      · subst hg
        exact Or.inr (by simp)
      · rcases ih hg with h | h
        · exact Or.inl h
        · exact Or.inr (by simp only [List.map_cons, List.mem_cons]; exact Or.inr h)

lemma addToGroups_keys_pairwise {gs : List (String × List KeplerRaw)}
    {k : String} {r0 : KeplerRaw}
    (h : gs.Pairwise (fun a b => a.1 ≠ b.1)) :
    (addToGroups gs k r0).Pairwise (fun a b => a.1 ≠ b.1) := by
  induction gs with
  | nil => simp [addToGroups]
  | cons g1 rest ih =>
    obtain ⟨k2, rs⟩ := g1
    rw [List.pairwise_cons] at h
    simp only [addToGroups]
    by_cases hk : k2 == k
    · rw [if_pos hk, List.pairwise_cons]
      exact ⟨h.1, h.2⟩
    · rw [if_neg hk, List.pairwise_cons]
      refine ⟨?_, ih h.2⟩
      intro b hb
      rcases mem_addToGroups_key hb with hbk | hbk
      · rw [hbk]
        simpa using hk
      · obtain ⟨b0, hb0, hb0k⟩ := List.mem_map.mp hbk
        have := h.1 b0 hb0
        rw [← hb0k]
        exact this

lemma starGroups_keys_pairwise (rows : List KeplerRaw) :
    (keplerStarGroups rows).Pairwise (fun a b => a.1 ≠ b.1) := by
  unfold keplerStarGroups
  have main : ∀ (l : List KeplerRaw) (gs : List (String × List KeplerRaw)),
      gs.Pairwise (fun a b => a.1 ≠ b.1) →
      (l.foldl
        (fun gs r =>
          match keplerGroupKey? r with
          | some k => addToGroups gs k r
          | Option.none => gs) gs).Pairwise (fun a b => a.1 ≠ b.1) := by
    intro l
    induction l with
    | nil => intro gs h; exact h
    | cons a l ih =>
      intro gs h
      rw [List.foldl_cons]
      apply ih
      cases keplerGroupKey? a with
      | none => exact h
      | some k => exact addToGroups_keys_pairwise h
  exact main _ [] List.Pairwise.nil

lemma foldl_distinct_keys (l : List PyVal) :
    ∀ acc : List PyVal, acc.Nodup →
      (l.foldl (fun acc h => if h ∈ acc then acc else acc ++ [h]) acc).Nodup := by
  induction l with
  | nil => intro acc h; exact h
  | cons a l ih =>
    intro acc h
    rw [List.foldl_cons]
    apply ih
    by_cases ha : a ∈ acc
    · rw [if_pos ha]; exact h
    · rw [if_neg ha]
      simp [List.nodup_append, h, ha]

lemma k2HostKeys_nodup (rows : List K2Raw) : (k2HostKeys rows).Nodup := by
  unfold k2HostKeys
  exact foldl_distinct_keys _ [] List.nodup_nil

lemma hostGroups_keys_pairwise (rows : List K2Raw) :
    (k2HostGroups rows).Pairwise (fun a b => a.1 ≠ b.1) := by
  unfold k2HostGroups
  rw [List.pairwise_map]
  exact k2HostKeys_nodup _

lemma upsert_names_pairwise {l : List SystemRecord} {s : SystemRecord}
    (h : l.Pairwise (fun a b => a.name ≠ b.name)) :
    (upsert l s).Pairwise (fun a b => a.name ≠ b.name) := by
  induction l with
  | nil => simp [upsert]
  | cons a rest ih =>
    rw [List.pairwise_cons] at h
    simp only [upsert]
    by_cases hn : a.name == s.name
    · rw [if_pos hn, List.pairwise_cons]
      refine ⟨?_, h.2⟩
      intro b hb
      have han : a.name = s.name := by simpa using hn
      rw [← han]
      exact h.1 b hb
    · rw [if_neg hn, List.pairwise_cons]
      refine ⟨?_, ih h.2⟩
      intro b hb
      rcases mem_upsert hb with rfl | hb2
      · simpa using hn
      · exact h.1 b hb2

lemma dedupe_names_pairwise (l : List SystemRecord) :
    (dedupeByName l).Pairwise (fun a b => a.name ≠ b.name) := by
  unfold dedupeByName
  have main : ∀ (l : List SystemRecord) (acc : List SystemRecord),
      acc.Pairwise (fun a b => a.name ≠ b.name) →
      (l.foldl upsert acc).Pairwise (fun a b => a.name ≠ b.name) := by
    intro l
    induction l with
    | nil => intro acc h; exact h
    | cons a l ih =>
      intro acc h
      rw [List.foldl_cons]
      exact ih _ (upsert_names_pairwise h)
  exact main _ [] List.Pairwise.nil

lemma planetLE_trans : ∀ a b c : PlanetEntry,
    planetLE a b = true → planetLE b c = true → planetLE a c = true := by
  intro a b c hab hbc
  simp only [planetLE, decide_eq_true_eq] at *
  exact le_trans hab hbc

lemma planetLE_total : ∀ a b : PlanetEntry,
    (planetLE a b || planetLE b a) = true := by
  intro a b
  simp only [planetLE, Bool.or_eq_true, decide_eq_true_eq]
  exact le_total _ _

lemma systemGE_trans : ∀ a b c : SystemRecord,
    systemGE a b = true → systemGE b c = true → systemGE a c = true := by
  intro a b c hab hbc
  simp only [systemGE, decide_eq_true_eq] at *
  exact le_trans hbc hab

lemma systemGE_total : ∀ a b : SystemRecord,
    (systemGE a b || systemGE b a) = true := by
  intro a b
  simp only [systemGE, Bool.or_eq_true, decide_eq_true_eq]
  exact le_total _ _

lemma take_mergeSort_planets_sorted (l : List PlanetEntry) (n : Nat) :
    ((List.mergeSort l planetLE).take n).Pairwise
      (fun p q => p.distance ≤ q.distance) := by
  have hs := List.sorted_mergeSort planetLE_trans planetLE_total l
  have ht := List.Pairwise.sublist (List.take_sublist n _) hs
  exact ht.imp (fun h => by simpa [planetLE] using h)

lemma mem_take_mergeSort_planets {l : List PlanetEntry} {n : Nat}
    {p : PlanetEntry} (h : p ∈ (List.mergeSort l planetLE).take n) : p ∈ l :=
  (List.mergeSort_perm l planetLE).mem_iff.mp
    (List.Sublist.mem h (List.take_sublist n _))

lemma mem_output {kf : Option (List KeplerRaw)} {k2f : Option (List K2Raw)}
    {s : SystemRecord} (h : s ∈ get_multi_planet_systems kf k2f) :
    s ∈ keplerContribution kf ++ k2Contribution k2f := by
  unfold get_multi_planet_systems at h
  have h1 := List.Sublist.mem h (List.take_sublist 20 _)
  have h2 := (List.mergeSort_perm _ systemGE).mem_iff.mp h1
  exact mem_dedupeByName h2

lemma mem_output_cases {kf : Option (List KeplerRaw)}
    {k2f : Option (List K2Raw)} {s : SystemRecord}
    (h : s ∈ get_multi_planet_systems kf k2f) :
    (∃ rows g, kf = some rows ∧ g ∈ keplerStarGroups rows ∧
      2 ≤ (g.2.filter keplerQualifies).length ∧ s = mkKeplerSystem g) ∨
    (∃ rows g, k2f = some rows ∧ g ∈ k2HostGroups rows ∧
      2 ≤ (g.2.filter k2Qualifies).length ∧ s = mkK2System g) := by
  rcases List.mem_append.mp (mem_output h) with hk | hk
  · left
    cases kf with
    | none => simp [keplerContribution] at hk
    | some rows =>
      rw [keplerContribution, keplerSystems_eq] at hk
      obtain ⟨g, hg, rfl⟩ := List.mem_map.mp hk
      obtain ⟨hg1, hg2⟩ := List.mem_filter.mp hg
      exact ⟨rows, g, rfl, hg1, of_decide_eq_true hg2, rfl⟩
  · right
    cases k2f with
    | none => simp [k2Contribution] at hk
    | some rows =>
      rw [k2Contribution, k2Systems_eq] at hk
      obtain ⟨g, hg, rfl⟩ := List.mem_map.mp hk
      obtain ⟨hg1, hg2⟩ := List.mem_filter.mp hg
      exact ⟨rows, g, rfl, hg1, of_decide_eq_true hg2, rfl⟩

lemma keplerQualifies_spec {r : KeplerRaw} (hq : keplerQualifies r = true) :
    ∃ per rad sma : ℚ,
      safe_float r.koi_period = some per ∧ per ≠ 0 ∧
      safe_float r.koi_prad = some rad ∧ rad ≠ 0 ∧
      safe_float r.koi_sma = some sma ∧ sma ≠ 0 := by
  unfold keplerQualifies at hq
  rw [Bool.and_eq_true, Bool.and_eq_true] at hq
  obtain ⟨⟨h1, h2⟩, h3⟩ := hq
  obtain ⟨per, hper, hper0⟩ := (truthyF_eq_true_iff _).mp h1
  obtain ⟨rad, hrad, hrad0⟩ := (truthyF_eq_true_iff _).mp h2
  obtain ⟨sma, hsma, hsma0⟩ := (truthyF_eq_true_iff _).mp h3
  exact ⟨per, rad, sma, hper, hper0, hrad, hrad0, hsma, hsma0⟩

lemma k2Qualifies_spec {r : K2Raw} (hq : k2Qualifies r = true) :
    ∃ per rad sma : ℚ,
      safe_float r.pl_orbper = some per ∧ per ≠ 0 ∧
      safe_float r.pl_rade = some rad ∧ rad ≠ 0 ∧
      safe_float r.pl_orbsmax = some sma ∧ sma ≠ 0 := by
  unfold k2Qualifies at hq
  rw [Bool.and_eq_true, Bool.and_eq_true] at hq
  obtain ⟨⟨h1, h2⟩, h3⟩ := hq
  obtain ⟨per, hper, hper0⟩ := (truthyF_eq_true_iff _).mp h1
  obtain ⟨rad, hrad, hrad0⟩ := (truthyF_eq_true_iff _).mp h2
  obtain ⟨sma, hsma, hsma0⟩ := (truthyF_eq_true_iff _).mp h3
  exact ⟨per, rad, sma, hper, hper0, hrad, hrad0, hsma, hsma0⟩

lemma mkKeplerEntry_fields {r : KeplerRaw} {m : Nat} {per rad sma : ℚ}
    (hper : safe_float r.koi_period = some per)
    (hrad : safe_float r.koi_prad = some rad)
    (hsma : safe_float r.koi_sma = some sma) :
    (mkKeplerEntry r m).distance = sma * 215 ∧
    (mkKeplerEntry r m).size = rad ∧
    (mkKeplerEntry r m).period = per := by
  simp [mkKeplerEntry, hper, hrad, hsma]

lemma mkK2Entry_fields {r : K2Raw} {m : Nat} {per rad sma : ℚ}
    (hper : safe_float r.pl_orbper = some per)
    (hrad : safe_float r.pl_rade = some rad)
    (hsma : safe_float r.pl_orbsmax = some sma) :
    (mkK2Entry r m).distance = sma * 215 ∧
    (mkK2Entry r m).size = rad ∧
    (mkK2Entry r m).period = per := by
  simp [mkK2Entry, hper, hrad, hsma]

lemma mkKeplerSystem_planets (g : String × List KeplerRaw) :
    (mkKeplerSystem g).planets =
      (List.mergeSort (keplerPlanets g.2 0) planetLE).take 8 := rfl

lemma mkK2System_planets (g : PyVal × List K2Raw) :
    (mkK2System g).planets =
      (List.mergeSort (k2Planets g.2 0) planetLE).take 8 := rfl

lemma mkKeplerSystem_planet_count (g : String × List KeplerRaw) :
    (mkKeplerSystem g).planet_count = (keplerPlanets g.2 0).length := rfl

lemma mkK2System_planet_count (g : PyVal × List K2Raw) :
    (mkK2System g).planet_count = (k2Planets g.2 0).length := rfl

lemma norm_kepler_canonical (v : PyVal) :
    canonicalDisp (normalize_kepler_disposition v) := by
  unfold normalize_kepler_disposition canonicalDisp
  dsimp only
  split_ifs <;> simp

lemma norm_tess_canonical (v : PyVal) :
    canonicalDisp (normalize_tess_disposition v) := by
  unfold normalize_tess_disposition canonicalDisp
  dsimp only
  split_ifs <;> simp

lemma norm_k2_canonical (v : PyVal) :
    canonicalDisp (normalize_k2_disposition v) := by
  unfold normalize_k2_disposition canonicalDisp
  dsimp only
  split_ifs <;> simp

/-! Claim theorems. -/

/-- C1, counterexample: the Kepler normalizer keeps a row whose
orbital-period cell is missing, as long as its disposition is present —
so the claimed required set {object-name, disposition, planet-radius,
orbital-period} is not what the code filters on. -/
theorem C1_counterexample :
    pdIsna c1row.koi_period = true ∧ (get_kepler_data [c1row]).length = 1 := by
  exact ⟨rfl, rfl⟩

/-- C1, amended: for every mission the required set is exactly the
disposition column — a raw row appears in the mission's normalized
output iff its disposition cell is non-null, and the output length
counts precisely those rows; presence of object-name, planet-radius or
orbital-period does not affect inclusion. -/
theorem C1_amended_only_disposition_required :
    (∀ rows : List KeplerRaw,
      (get_kepler_data rows).length =
        rows.countP (fun r => pdNotna r.koi_disposition)) ∧
    (∀ rows : List TessRaw,
      (get_tess_data rows).length =
        rows.countP (fun r => pdNotna r.tfopwg_disp)) ∧
    (∀ rows : List K2Raw,
      (get_k2_data rows).length =
        rows.countP (fun r => pdNotna r.disposition)) := by
  refine ⟨fun rows => ?_, fun rows => ?_, fun rows => ?_⟩ <;>
    simp [get_kepler_data, get_tess_data, get_k2_data,
      List.countP_eq_length_filter]

/-- C2: every record any of the three normalizers emits carries one of
the three canonical disposition strings, and each mission's mapping
sends a missing or unrecognized source value to CANDIDATE. -/
theorem C2_disposition_canonical :
    (∀ (rows : List KeplerRaw) rec, rec ∈ get_kepler_data rows →
      canonicalDisp rec.disposition) ∧
    (∀ (rows : List TessRaw) rec, rec ∈ get_tess_data rows →
      canonicalDisp rec.disposition) ∧
    (∀ (rows : List K2Raw) rec, rec ∈ get_k2_data rows →
      canonicalDisp rec.disposition) ∧
    normalize_kepler_disposition PyVal.nan = "CANDIDATE" ∧
    normalize_tess_disposition PyVal.nan = "CANDIDATE" ∧
    normalize_k2_disposition PyVal.nan = "CANDIDATE" ∧
    (∀ s : String, strHasSub (pyUpper s) "CONFIRMED" = false →
      strHasSub (pyUpper s) "CANDIDATE" = false →
      strHasSub (pyUpper s) "FALSE" = false →
      normalize_kepler_disposition (PyVal.str s) = "CANDIDATE") ∧
    (∀ s : String, pyUpper s ≠ "CP" → pyUpper s ≠ "PC" →
      pyUpper s ≠ "FP" → pyUpper s ≠ "KP" →
      normalize_tess_disposition (PyVal.str s) = "CANDIDATE") ∧
    (∀ s : String, strHasSub (pyUpper s) "CONFIRMED" = false →
      strHasSub (pyUpper s) "CANDIDATE" = false →
      strHasSub (pyUpper s) "FALSE" = false →
      normalize_k2_disposition (PyVal.str s) = "CANDIDATE") := by
  refine ⟨?_, ?_, ?_, by decide, by decide, by decide, ?_, ?_, ?_⟩
  · intro rows rec h
    obtain ⟨r, _, rfl⟩ := List.mem_map.mp h
    exact norm_kepler_canonical _
  · intro rows rec h
    obtain ⟨r, _, rfl⟩ := List.mem_map.mp h
    exact norm_tess_canonical _
  · intro rows rec h
    obtain ⟨r, _, rfl⟩ := List.mem_map.mp h
    exact norm_k2_canonical _
  · intro s h1 h2 h3
    have e1 : pyUpper s ≠ "CONFIRMED" := by
      intro he; rw [he] at h1; exact absurd h1 (by decide)
    have e2 : pyUpper s ≠ "CANDIDATE" := by
      intro he; rw [he] at h2; exact absurd h2 (by decide)
    have e3 : pyUpper s ≠ "FALSE POSITIVE" := by
      intro he; rw [he] at h3; exact absurd h3 (by decide)
    simp [normalize_kepler_disposition, pyStr, h1, h2, h3, e1, e2, e3]
  · intro s h1 h2 h3 h4
    simp [normalize_tess_disposition, pyStr, h1, h2, h3, h4]
  · intro s h1 h2 h3
    simp [normalize_k2_disposition, pyStr, h1, h2, h3]

/-- C2 witness at a concrete confirmed Kepler row. -/
theorem C2_witness : canonicalDisp (keplerTransformRow sampleKRow1).disposition :=
  C2_disposition_canonical.1 [sampleKRow1] (keplerTransformRow sampleKRow1)
    (by decide)

/-- C5: the color is a pure function of the radius through the fixed
first-match-wins bucket table, with the boundary behavior the spec
names at 1.0, 1.25, 6.0 and 15.0. -/
theorem C5_color_buckets :
    (∀ r : ℚ,
      (r < 5/4 → assign_planet_color r = "#e74c3c") ∧
      (5/4 ≤ r → r < 2 → assign_planet_color r = "#3498db") ∧
      (2 ≤ r → r < 6 → assign_planet_color r = "#9b59b6") ∧
      (6 ≤ r → r < 12 → assign_planet_color r = "#f39c12") ∧
      (12 ≤ r → assign_planet_color r = "#1abc9c")) ∧
    assign_planet_color 1 = "#e74c3c" ∧
    assign_planet_color (5/4) = "#3498db" ∧
    assign_planet_color 6 = "#f39c12" ∧
    assign_planet_color 15 = "#1abc9c" := by
  have main : ∀ r : ℚ,
      (r < 5/4 → assign_planet_color r = "#e74c3c") ∧
      (5/4 ≤ r → r < 2 → assign_planet_color r = "#3498db") ∧
      (2 ≤ r → r < 6 → assign_planet_color r = "#9b59b6") ∧
      (6 ≤ r → r < 12 → assign_planet_color r = "#f39c12") ∧
      (12 ≤ r → assign_planet_color r = "#1abc9c") := by
    intro r
    refine ⟨?_, ?_, ?_, ?_, ?_⟩
    · intro h
      rw [assign_planet_color, if_pos h]
    · intro h1 h2
      rw [assign_planet_color, if_neg (not_lt.mpr h1), if_pos h2]
    · intro h1 h2
      have e1 : ¬ r < 5/4 := not_lt.mpr (le_trans (by norm_num) h1)
      rw [assign_planet_color, if_neg e1, if_neg (not_lt.mpr h1), if_pos h2]
    · intro h1 h2
      have e1 : ¬ r < 5/4 := not_lt.mpr (le_trans (by norm_num) h1)
      have e2 : ¬ r < 2 := not_lt.mpr (le_trans (by norm_num) h1)
      rw [assign_planet_color, if_neg e1, if_neg e2, if_neg (not_lt.mpr h1),
        if_pos h2]
    · intro h1
      have e1 : ¬ r < 5/4 := not_lt.mpr (le_trans (by norm_num) h1)
      have e2 : ¬ r < 2 := not_lt.mpr (le_trans (by norm_num) h1)
      have e3 : ¬ r < 6 := not_lt.mpr (le_trans (by norm_num) h1)
      rw [assign_planet_color, if_neg e1, if_neg e2, if_neg e3,
        if_neg (not_lt.mpr h1)]
  refine ⟨main, (main 1).1 (by norm_num),
    (main (5/4)).2.1 (by norm_num) (by norm_num),
    (main 6).2.2.2.1 (by norm_num) (by norm_num),
    (main 15).2.2.2.2 (by norm_num)⟩

/-- C5 witness: the first bucket at radius 1. -/
theorem C5_witness : assign_planet_color 1 = "#e74c3c" :=
  (C5_color_buckets.1 1).1 (by norm_num)

/-- C7: a missing source file for either grouper mission is non-fatal:
the endpoint still answers 200 and the body is exactly the pipeline run
on the other mission's systems alone; with both files missing the body
is the empty list, still with status 200. -/
theorem C7_missing_file_nonfatal :
    (∀ k2rows : List K2Raw,
      (multi_planet_systems_route Option.none (some k2rows)).status = 200 ∧
      (multi_planet_systems_route Option.none (some k2rows)).body =
        (List.mergeSort (dedupeByName (k2Systems k2rows)) systemGE).take 20) ∧
    (∀ krows : List KeplerRaw,
      (multi_planet_systems_route (some krows) Option.none).status = 200 ∧
      (multi_planet_systems_route (some krows) Option.none).body =
        (List.mergeSort (dedupeByName (keplerSystems krows)) systemGE).take 20) ∧
    (multi_planet_systems_route Option.none Option.none).status = 200 ∧
    (multi_planet_systems_route Option.none Option.none).body = [] := by
  refine ⟨fun k2rows => ⟨rfl, ?_⟩, fun krows => ⟨rfl, ?_⟩, rfl, ?_⟩
  · simp [multi_planet_systems_route, get_multi_planet_systems,
      keplerContribution, k2Contribution]
  · simp [multi_planet_systems_route, get_multi_planet_systems,
      keplerContribution, k2Contribution]
  · show (List.mergeSort (dedupeByName ([] ++ [])) systemGE).take 20 = []
    rw [show dedupeByName ([] ++ []) = [] from rfl,
      (List.mergeSort_perm [] systemGE).eq_nil]
    rfl

/-- C8: safe_float is a total function (the embedding of "never
raises"): NaN, None and non-numeric strings give an absent result, a
number gives exactly itself, a numeric string gives its parsed value. -/
theorem C8_safe_float_total :
    (∀ v : PyVal, pdIsna v = true → safe_float v = Option.none) ∧
    safe_float PyVal.none = Option.none ∧
    safe_float PyVal.nan = Option.none ∧
    (∀ q : ℚ, safe_float (PyVal.num q) = some q) ∧
    (∀ s : String, strToRat? s = Option.none →
      safe_float (PyVal.str s) = Option.none) ∧
    (∀ s : String, ∀ q : ℚ, strToRat? s = some q →
      safe_float (PyVal.str s) = some q) := by
  refine ⟨?_, rfl, rfl, fun q => rfl, ?_, ?_⟩
  · intro v h
    unfold safe_float
    rw [if_pos h]
  · intro s h
    simp [safe_float, pdIsna, pyFloat, h]
  · intro s q h
    simp [safe_float, pdIsna, pyFloat, h]

/-- C8 witness: a non-numeric string maps to an absent result. -/
theorem C8_witness : safe_float (PyVal.str "abc") = Option.none :=
  C8_safe_float_total.2.2.2.2.1 "abc" (by rfl)

/-- C3: per mission, the grouper emits exactly one SystemRecord for each
host-star group with at least two planets passing the completeness
check, and none for any other group — in particular a group with one
qualifying member, or one of raw size ≥2 whose qualifying members number
fewer than 2, produces nothing; the group lists carry pairwise-distinct
host keys, so a qualifying host appears exactly once per mission. -/
theorem C3_grouping_rule :
    (∀ rows : List KeplerRaw,
      keplerSystems rows =
        ((keplerStarGroups rows).filter
          (fun g => decide (2 ≤ (g.2.filter keplerQualifies).length))).map
          mkKeplerSystem ∧
      (keplerStarGroups rows).Pairwise (fun a b => a.1 ≠ b.1)) ∧
    (∀ rows : List K2Raw,
      k2Systems rows =
        ((k2HostGroups rows).filter
          (fun g => decide (2 ≤ (g.2.filter k2Qualifies).length))).map
          mkK2System ∧
      (k2HostGroups rows).Pairwise (fun a b => a.1 ≠ b.1)) :=
  ⟨fun rows => ⟨keplerSystems_eq rows, starGroups_keys_pairwise rows⟩,
   fun rows => ⟨k2Systems_eq rows, hostGroups_keys_pairwise rows⟩⟩

/-- C4: every emitted system's planets array is ascending in distance,
has at most 8 entries, and each entry's distance is a nonzero input
semi-major-axis value times exactly 215. -/
theorem C4_planets_sorted_truncated_scaled :
    ∀ (kf : Option (List KeplerRaw)) (k2f : Option (List K2Raw))
      (sys : SystemRecord),
      sys ∈ get_multi_planet_systems kf k2f →
      sortedScaledBounded kf k2f sys := by
  intro kf k2f sys hmem
  rcases mem_output_cases hmem with
    ⟨rows, g, rfl, hg, _, rfl⟩ | ⟨rows, g, rfl, hg, _, rfl⟩
  · refine ⟨?_, ?_, ?_⟩
    · rw [mkKeplerSystem_planets]
      exact take_mergeSort_planets_sorted _ _
    · rw [mkKeplerSystem_planets, List.length_take]
      exact min_le_left _ _
    · intro p hp
      rw [mkKeplerSystem_planets] at hp
      obtain ⟨r, m, hr, hq, rfl⟩ :=
        mem_keplerPlanets _ _ (mem_take_mergeSort_planets hp)
      obtain ⟨per, rad, sma, hper, _, hrad, _, hsma, hsma0⟩ :=
        keplerQualifies_spec hq
      exact ⟨sma, hsma0, (mkKeplerEntry_fields hper hrad hsma).1,
        Or.inl ⟨rows, r, rfl, starGroups_rows hg hr, hsma⟩⟩
  · refine ⟨?_, ?_, ?_⟩
    · rw [mkK2System_planets]
      exact take_mergeSort_planets_sorted _ _
    · rw [mkK2System_planets, List.length_take]
      exact min_le_left _ _
    · intro p hp
      rw [mkK2System_planets] at hp
      obtain ⟨r, m, hr, hq, rfl⟩ :=
        mem_k2Planets _ _ (mem_take_mergeSort_planets hp)
      obtain ⟨per, rad, sma, hper, _, hrad, _, hsma, hsma0⟩ :=
        k2Qualifies_spec hq
      exact ⟨sma, hsma0, (mkK2Entry_fields hper hrad hsma).1,
        Or.inr ⟨rows, r, rfl, hostGroups_rows hg hr, hsma⟩⟩

/-- A one-element list is already sorted. -/
lemma mergeSort_single (x : SystemRecord) :
    List.mergeSort [x] systemGE = [x] :=
  List.perm_singleton.mp (List.mergeSort_perm [x] systemGE)

/-- The endpoint output on the sample two-planet Kepler file. -/
lemma sample_output :
    get_multi_planet_systems (some sampleKeplerRows) Option.none =
      [sampleSystem] := by
  unfold get_multi_planet_systems
  dsimp only
  rw [show dedupeByName
        (keplerContribution (some sampleKeplerRows) ++
          k2Contribution Option.none) = [sampleSystem] from rfl,
    mergeSort_single]
  rfl

/-- C4 witness at the sample input. -/
theorem C4_witness :
    sortedScaledBounded (some sampleKeplerRows) Option.none sampleSystem :=
  C4_planets_sorted_truncated_scaled (some sampleKeplerRows) Option.none
    sampleSystem (by rw [sample_output]; exact List.mem_cons_self _ _)

/-- C6: the endpoint output is the name-deduplicated union of the Kepler
systems (first) and the K2 systems (second), sorted descending by planet
count and cut to 20; deduplication keeps, for each name, the last
record carrying it — so for a name collision the later-processed
mission's (K2's) record silently survives — and the result carries
pairwise-distinct names. -/
theorem C6_dedupe_sort_truncate :
    (∀ (kf : Option (List KeplerRaw)) (k2f : Option (List K2Raw)),
      get_multi_planet_systems kf k2f =
        (List.mergeSort
          (dedupeByName (keplerContribution kf ++ k2Contribution k2f))
          systemGE).take 20 ∧
      (get_multi_planet_systems kf k2f).length ≤ 20 ∧
      (get_multi_planet_systems kf k2f).Pairwise
        (fun a b => b.planet_count ≤ a.planet_count) ∧
      (get_multi_planet_systems kf k2f).Pairwise
        (fun a b => a.name ≠ b.name)) ∧
    (∀ (l : List SystemRecord) (n : PyVal) (s : SystemRecord),
      lastNamed l n = some s → s ∈ dedupeByName l) ∧
    (∀ l : List SystemRecord,
      (dedupeByName l).Pairwise (fun a b => a.name ≠ b.name)) := by
  refine ⟨fun kf k2f => ⟨rfl, ?_, ?_, ?_⟩,
    fun l n s h => lastNamed_mem_dedupe l n s h, dedupe_names_pairwise⟩
  · rw [get_multi_planet_systems, List.length_take]
    exact min_le_left _ _
  · have hs := List.sorted_mergeSort systemGE_trans systemGE_total
      (dedupeByName (keplerContribution kf ++ k2Contribution k2f))
    have ht := List.Pairwise.sublist (List.take_sublist 20 _) hs
    exact ht.imp (fun h => by simpa [systemGE] using h)
  · have hd := dedupe_names_pairwise
      (keplerContribution kf ++ k2Contribution k2f)
    have hp := (List.mergeSort_perm
      (dedupeByName (keplerContribution kf ++ k2Contribution k2f))
      systemGE).pairwise_iff
      (fun {a b : SystemRecord} (h : a.name ≠ b.name) he => h he.symm)
    exact List.Pairwise.sublist (List.take_sublist 20 _) (hp.mpr hd)

/-- C6 witness: with two same-named systems, deduplication keeps the
later (K2) record. -/
theorem C6_witness : sysB ∈ dedupeByName [sysA, sysB] :=
  C6_dedupe_sort_truncate.2.1 [sysA, sysB] (PyVal.str "X") sysB rfl

/-- C9: planet_count is the number of qualifying group members before
the 8-planet cut, while the stored array length is that count capped at
8 — so a group with more than 8 qualifying planets reports planet_count
strictly larger than the array length. -/
theorem C9_planet_count_before_truncation :
    (∀ g : String × List KeplerRaw,
      (mkKeplerSystem g).planet_count = (g.2.filter keplerQualifies).length) ∧
    (∀ g : PyVal × List K2Raw,
      (mkK2System g).planet_count = (g.2.filter k2Qualifies).length) ∧
    (∀ (kf : Option (List KeplerRaw)) (k2f : Option (List K2Raw))
      (sys : SystemRecord), sys ∈ get_multi_planet_systems kf k2f →
      sys.planets.length = min 8 sys.planet_count ∧
      (8 < sys.planet_count → sys.planets.length < sys.planet_count)) := by
  refine ⟨fun g => ?_, fun g => ?_, ?_⟩
  · rw [mkKeplerSystem_planet_count, keplerPlanets_length]
  · rw [mkK2System_planet_count, k2Planets_length]
  · intro kf k2f sys hmem
    rcases mem_output_cases hmem with
      ⟨rows, g, _, hg, _, rfl⟩ | ⟨rows, g, _, hg, _, rfl⟩
    · have hlen : (mkKeplerSystem g).planets.length =
          min 8 (mkKeplerSystem g).planet_count := by
        rw [mkKeplerSystem_planets, mkKeplerSystem_planet_count,
          List.length_take, (List.mergeSort_perm _ _).length_eq]
      refine ⟨hlen, fun h8 => ?_⟩
      rw [hlen]
      omega
    · have hlen : (mkK2System g).planets.length =
          min 8 (mkK2System g).planet_count := by
        rw [mkK2System_planets, mkK2System_planet_count,
          List.length_take, (List.mergeSort_perm _ _).length_eq]
      refine ⟨hlen, fun h8 => ?_⟩
      rw [hlen]
      omega

/-- C9 witness at the sample input. -/
theorem C9_witness :
    sampleSystem.planets.length = min 8 sampleSystem.planet_count ∧
    (8 < sampleSystem.planet_count →
      sampleSystem.planets.length < sampleSystem.planet_count) :=
  C9_planet_count_before_truncation.2.2 (some sampleKeplerRows) Option.none
    sampleSystem (by rw [sample_output]; exact List.mem_cons_self _ _)

/-- C10: the completeness check uses numeric truthiness, so a present
but zero period, radius or semi-major axis disqualifies the row, and no
emitted planet entry carries a zero distance, size or period. -/
theorem C10_truthiness_excludes_zero :
    (∀ r : KeplerRaw,
      (safe_float r.koi_period = some 0 ∨ safe_float r.koi_prad = some 0 ∨
        safe_float r.koi_sma = some 0) → keplerQualifies r = false) ∧
    (∀ r : K2Raw,
      (safe_float r.pl_orbper = some 0 ∨ safe_float r.pl_rade = some 0 ∨
        safe_float r.pl_orbsmax = some 0) → k2Qualifies r = false) ∧
    (∀ (kf : Option (List KeplerRaw)) (k2f : Option (List K2Raw))
      (sys : SystemRecord), sys ∈ get_multi_planet_systems kf k2f →
      ∀ p ∈ sys.planets, p.distance ≠ 0 ∧ p.size ≠ 0 ∧ p.period ≠ 0) := by
  refine ⟨?_, ?_, ?_⟩
  · intro r h
    rcases h with h | h | h <;> simp [keplerQualifies, truthyF, h]
  · intro r h
    rcases h with h | h | h <;> simp [k2Qualifies, truthyF, h]
  · intro kf k2f sys hmem p hp
    rcases mem_output_cases hmem with
      ⟨rows, g, _, hg, _, rfl⟩ | ⟨rows, g, _, hg, _, rfl⟩
    · rw [mkKeplerSystem_planets] at hp
      obtain ⟨r, m, hr, hq, rfl⟩ :=
        mem_keplerPlanets _ _ (mem_take_mergeSort_planets hp)
      obtain ⟨per, rad, sma, hper, hper0, hrad, hrad0, hsma, hsma0⟩ :=
        keplerQualifies_spec hq
      obtain ⟨hd, hs, hp2⟩ := mkKeplerEntry_fields (m := m) hper hrad hsma
      rw [hd, hs, hp2]
      exact ⟨mul_ne_zero hsma0 (by norm_num), hrad0, hper0⟩
    · rw [mkK2System_planets] at hp
      obtain ⟨r, m, hr, hq, rfl⟩ :=
        mem_k2Planets _ _ (mem_take_mergeSort_planets hp)
      obtain ⟨per, rad, sma, hper, hper0, hrad, hrad0, hsma, hsma0⟩ :=
        k2Qualifies_spec hq
      obtain ⟨hd, hs, hp2⟩ := mkK2Entry_fields (m := m) hper hrad hsma
      rw [hd, hs, hp2]
      exact ⟨mul_ne_zero hsma0 (by norm_num), hrad0, hper0⟩

/-- C10 witness: the first sample planet entry has nonzero distance,
size and period. -/
theorem C10_witness :
    (mkKeplerEntry sampleKRow1 0).distance ≠ 0 ∧
    (mkKeplerEntry sampleKRow1 0).size ≠ 0 ∧
    (mkKeplerEntry sampleKRow1 0).period ≠ 0 :=
  C10_truthiness_excludes_zero.2.2 (some sampleKeplerRows) Option.none
    sampleSystem (by rw [sample_output]; exact List.mem_cons_self _ _)
    (mkKeplerEntry sampleKRow1 0)
    (by
      rw [show sampleSystem.planets =
        (List.mergeSort (keplerPlanets sampleKeplerRows 0) planetLE).take 8
        from rfl]
      have hlen :
          (List.mergeSort (keplerPlanets sampleKeplerRows 0) planetLE).length
            ≤ 8 := by
        rw [(List.mergeSort_perm _ _).length_eq]
        decide
      rw [List.take_of_length_le hlen]
      exact (List.mergeSort_perm _ _).mem_iff.mpr
        (List.mem_cons_self _ _))

end ExoFinder
